import Mathlib

/-!
Shallow embedding of two instrumentation modules of the repository:

* `src/packages/integrations/src/httpclient.ts` — the `HttpClient`
  integration that intercepts `fetch` / `XMLHttpRequest` responses and
  synthesizes Sentry error events for failed HTTP requests;
* `src/src/coreHandlers/handleDom.ts` — the DOM-event-to-breadcrumb
  converter.

JavaScript values are modelled explicitly: a value that may be
`undefined` is an `Option`, a computation that may throw is an `Except`,
a JS object used as a string map is an association list with
upsert-on-assignment semantics, and JS truthiness of `string | undefined`
is spelled out (`undefined` and the empty string are falsy).
-/

namespace SentrySpec

/-- JS string-keyed record whose values may be `undefined`
(`Record<string, string>` at the type level, but runtime assignment of
`undefined` values does occur in the source, e.g. in cookie parsing). -/
abbrev JsRecord : Type := List (String × Option String)

/-- Property read `r[k]`: `undefined` when the key is absent, otherwise the
stored value (which may itself be `undefined`). -/
def jsGet (r : JsRecord) (k : String) : Option String :=
  match r.find? (fun p => p.1 = k) with
  | none => none
  | some p => p.2

/-- Property assignment `r[k] = v` on a JS object: overwrites the value of
an existing key in place, otherwise appends (JS objects keep insertion
order of keys). -/
def jsSet (r : JsRecord) (k : String) (v : Option String) : JsRecord :=
  if r.any (fun p => p.1 = k) then
    r.map (fun p => if p.1 = k then (k, v) else p)
  else
    r ++ [(k, v)]

/-- JS truthiness of a `string | undefined` value: `undefined` and `""`
are falsy. -/
def jsTruthyStr : Option String → Bool
  | none => false
  | some s => !(s = "")

/-- JS `a || b` on `string | undefined` values: `b` when `a` is falsy. -/
def jsOrStr (a b : Option String) : Option String :=
  if jsTruthyStr a then a else b

/-- One step of JS `parseInt` digit accumulation. -/
def digitsVal (ds : List Char) : Nat :=
  ds.foldl (fun acc c => acc * 10 + (c.toNat - 48)) 0

/-- JS `parseInt(s, 10)`: skip leading whitespace, take an optional sign,
then the longest prefix of decimal digits; `none` models `NaN` (no digit
found). -/
def jsParseIntBase10 (s : String) : Option Int :=
  let cs := s.toList.dropWhile (fun c =>
    c = ' ' ∨ c = '\t' ∨ c = '\n' ∨ c = '\r' ∨ c = '\x0c' ∨ c = '\x0b')
  let signAndRest : Int × List Char :=
    match cs with
    | '-' :: t => (-1, t)
    | '+' :: t => (1, t)
    | _ => (1, cs)
  let ds := signAndRest.2.takeWhile Char.isDigit
  if ds.isEmpty then none
  else some (signAndRest.1 * (digitsVal ds : Int))

/-- `true` when `sub` occurs in `hay` at position 0 (prefix of the
character list). -/
def charsLeading : List Char → List Char → Bool
  | [], _ => true
  | _ :: _, [] => false
  | a :: as, b :: bs => a = b && charsLeading as bs

/-- `true` when `needle` occurs somewhere in the character list. -/
def charsSub (needle : List Char) : List Char → Bool
  | [] => charsLeading needle []
  | c :: t => charsLeading needle (c :: t) || charsSub needle t

/-- JS `hay.includes(sub)`: substring containment. -/
def strIncludes (hay sub : String) : Bool :=
  charsSub sub.toList hay.toList

/-! ### The Sentry event data model (`@sentry/types` fields used here) -/

/-- Exception mechanism attached by `addExceptionMechanism`. -/
structure Mechanism where
  type : String
  handled : Bool
  deriving DecidableEq, Repr

/-- One entry of `event.exception.values`. -/
structure ExceptionValue where
  type : String
  value : String
  mechanism : Option Mechanism
  deriving DecidableEq, Repr

/-- `event.request`. -/
structure SentryRequest where
  url : String
  method : String
  headers : Option JsRecord
  cookies : Option JsRecord
  deriving DecidableEq, Repr

/-- `event.contexts.response`.  `body_size` is a JS
`number | undefined`: the outer `Option` is `undefined`, the inner
`Option` is `NaN` (from `parseInt` finding no digit). -/
structure ResponseContext where
  status_code : Nat
  headers : Option JsRecord
  cookies : Option JsRecord
  body_size : Option (Option Int)
  deriving DecidableEq, Repr

/-- The synthesized Sentry event (the fields set by `_createEvent`);
`exceptionValues` is `event.exception.values`, `contextsResponse` is
`event.contexts.response`. -/
structure SentryEvent where
  message : String
  exceptionValues : List ExceptionValue
  request : SentryRequest
  contextsResponse : ResponseContext
  deriving DecidableEq, Repr

/-! ### Hub / client / options model -/

/-- DSN: the only field the module reads is `host`. -/
structure Dsn where
  host : String
  deriving DecidableEq, Repr

/-- Sentry client: the only method used is `getDsn()`. -/
structure Client where
  dsn : Option Dsn
  deriving DecidableEq, Repr

/-- Hub: the methods used are `shouldSendDefaultPii()`, `getClient()` and
`captureEvent` (the latter modelled by returning the captured event). -/
structure Hub where
  shouldSendDefaultPii : Bool
  client : Option Client
  deriving DecidableEq, Repr

/-- `HttpStatusCodeRange = [number, number] | number`. -/
inductive HttpStatusCodeRange where
  | single (n : Nat)
  | range (lo hi : Nat)
  deriving DecidableEq, Repr

/-- `HttpRequestTarget = string | RegExp`; a `RegExp` is modelled by its
`test` predicate on strings. -/
inductive HttpRequestTarget where
  | str (s : String)
  | regex (test : String → Bool)

/-- The `HttpClient` integration state: `_options` (each list is
`undefined` when absent) and the `_getCurrentHub` getter (`undefined`
before `setupOnce`, afterwards modelled by the hub it yields). -/
structure HttpClient where
  failedRequestStatusCodes : Option (List HttpStatusCodeRange)
  failedRequestTargets : Option (List HttpRequestTarget)
  getCurrentHub : Option Hub

/-! ### httpclient.ts private helpers -/

/-- `_isInGivenRequestTargets`: `false` when the option is `undefined`,
otherwise `Array.prototype.some` over the entries — substring test for a
string entry, `RegExp.test` for a pattern entry. -/
def isInGivenRequestTargets (self : HttpClient) (target : String) : Bool :=
  match self.failedRequestTargets with
  | none => false
  | some l =>
    l.any (fun t =>
      match t with
      | .str s => strIncludes target s
      | .regex p => p target)

/-- `_isInGivenStatusRanges`: `false` when the option is `undefined`,
otherwise `Array.prototype.some` over the entries — equality for a single
code, inclusive bounds for a `[begin, end]` pair. -/
def isInGivenStatusRanges (self : HttpClient) (status : Nat) : Bool :=
  match self.failedRequestStatusCodes with
  | none => false
  | some l =>
    l.any (fun r =>
      match r with
      | .single n => n = status
      | .range lo hi => decide (lo ≤ status) && decide (status ≤ hi))

/-- `_isSentryRequest`: `false` when the hub getter or the client is
absent, otherwise `url.includes(dsn.host)` when the client has a DSN. -/
def isSentryRequest (self : HttpClient) (url : String) : Bool :=
  match self.getCurrentHub with
  | none => false
  | some hub =>
    match hub.client with
    | none => false
    | some client =>
      match client.dsn with
      | none => false
      | some dsn => strIncludes url dsn.host

/-- `_shouldCaptureResponse`. -/
def shouldCaptureResponse (self : HttpClient) (status : Nat) (url : String) : Bool :=
  isInGivenStatusRanges self status && isInGivenRequestTargets self url
    && !isSentryRequest self url

/-- `_parseCookieString`: split on `"; "`, then each cookie on `"="`,
keeping the first two parts as key and value (the value is `undefined`
when there is no `"="`). -/
def parseCookieString (cookieString : String) : JsRecord :=
  (cookieString.splitOn "; ").foldl
    (fun acc cookie =>
      let parts := cookie.splitOn "="
      jsSet acc (parts.headD "") parts[1]?)
    []

/-- `_extractFetchHeaders`: `Headers.forEach` into a fresh record. -/
def extractFetchHeaders (headers : List (String × String)) : JsRecord :=
  headers.foldl (fun acc p => jsSet acc p.1 (some p.2)) []

/-- The `Content-Length` lookup of `_getResponseSizeFromHeaders`:
`headers['Content-Length'] || headers['content-length']`, then the
`if (contentLength)` truthiness guard. -/
def contentLengthOf (h : JsRecord) : Option String :=
  let contentLength := jsOrStr (jsGet h "Content-Length") (jsGet h "content-length")
  if jsTruthyStr contentLength then contentLength else none

/-- `_getResponseSizeFromHeaders`: `undefined` when headers are absent or
carry no truthy `Content-Length`; otherwise `parseInt(contentLength, 10)`
(which may itself be `NaN`, the inner `none`). -/
def getResponseSizeFromHeaders (headers : Option JsRecord) : Option (Option Int) :=
  match headers with
  | none => none
  | some h =>
    match contentLengthOf h with
    | some v => some (jsParseIntBase10 v)
    | none => none

/-- Modelled from the spec: `addExceptionMechanism` comes from
`@sentry/utils`, which is not under `src/`; per the call site and the
spec's common event schema it attaches the given mechanism type to the
event's first exception value, marked as handled. -/
def addExceptionMechanism (e : SentryEvent) (mechType : String) : SentryEvent :=
  { e with
    exceptionValues :=
      match e.exceptionValues with
      | [] => []
      | v :: vs => { v with mechanism := some ⟨mechType, true⟩ } :: vs }

/-- `_createEvent`: the synthetic event for a failed request, with the
`http.client` exception mechanism attached. -/
def createEvent (url method : String) (status : Nat)
    (requestHeaders requestCookies responseHeaders responseCookies : Option JsRecord) :
    SentryEvent :=
  let message := "HTTP Client Error with status code: " ++ toString status
  addExceptionMechanism
    { message := message
      exceptionValues := [{ type := "Error", value := message, mechanism := none }]
      request :=
        { url := url, method := method
          headers := requestHeaders, cookies := requestCookies }
      contextsResponse :=
        { status_code := status
          headers := responseHeaders
          cookies := responseCookies
          body_size := getResponseSizeFromHeaders responseHeaders } }
    "http.client"

/-! ### Response handlers -/

/-- Input of `_fetchResponseHandler` after `new Request(requestInfo,
requestInit)` (a browser API): the request's url, method and headers as
iterated by `Headers.forEach`. -/
structure FetchRequest where
  url : String
  method : String
  headers : List (String × String)

/-- A Fetch API `Response` as read by the handler. -/
structure FetchResponse where
  url : String
  status : Nat
  headers : List (String × String)

/-- The headers/cookies extraction of `_fetchResponseHandler` for one
object (request with `Cookie`, response with `Set-Cookie`): extract the
headers record, then parse the cookie header when truthy. -/
def fetchHeadersAndCookies (cookieHeader : String) (hs : List (String × String)) :
    JsRecord × Option JsRecord :=
  let headers := extractFetchHeaders hs
  let cookieString :=
    jsOrStr (jsGet headers cookieHeader) (jsGet headers cookieHeader.toLower)
  (headers,
    if jsTruthyStr cookieString then cookieString.map parseCookieString else none)

/-- `_fetchResponseHandler`: returns the event passed to
`hub.captureEvent`, or `none` when no event is captured. -/
def fetchResponseHandler (self : HttpClient) (request : FetchRequest)
    (response : FetchResponse) : Option SentryEvent :=
  match self.getCurrentHub with
  | none => none
  | some hub =>
    if shouldCaptureResponse self response.status response.url then
      let piiData :
          Option JsRecord × Option JsRecord × Option JsRecord × Option JsRecord :=
        if hub.shouldSendDefaultPii then
          let reqPair := fetchHeadersAndCookies "Cookie" request.headers
          let respPair := fetchHeadersAndCookies "Set-Cookie" response.headers
          (some reqPair.1, reqPair.2, some respPair.1, respPair.2)
        else (none, none, none, none)
      some (createEvent request.url request.method response.status
        piiData.1 piiData.2.1 piiData.2.2.1 piiData.2.2.2)
    else none

/-- An `XMLHttpRequest` as read by `_xhrResponseHandler`:
`status`, `responseURL`, the two `getResponseHeader('Set-Cookie')`
lookups (`none` is the `null` return) and `getAllResponseHeaders()`
(`none` models `null`). -/
structure Xhr where
  status : Nat
  responseURL : String
  setCookieHeader : Option String
  setCookieHeaderLower : Option String
  allResponseHeaders : Option String

/-- `_getXHRResponseHeaders`: empty record when
`getAllResponseHeaders()` is falsy, otherwise split the block on CRLF
and each line on `": "` into key and value. -/
def getXHRResponseHeaders (xhr : Xhr) : JsRecord :=
  if jsTruthyStr xhr.allResponseHeaders then
    ((xhr.allResponseHeaders.getD "").splitOn "\r\n").foldl
      (fun acc line =>
        let parts := line.splitOn ": "
        jsSet acc (parts.headD "") parts[1]?)
      []
  else []

/-- `_xhrResponseHandler`: returns the event passed to
`hub.captureEvent`, or `none` when no event is captured.  `headers` is
the request-header record accumulated by the wrapped
`setRequestHeader`; request cookies are never available for XHR. -/
def xhrResponseHandler (self : HttpClient) (xhr : Xhr) (method : String)
    (headers : JsRecord) : Option SentryEvent :=
  match self.getCurrentHub with
  | none => none
  | some hub =>
    if shouldCaptureResponse self xhr.status xhr.responseURL then
      let piiData : Option JsRecord × Option JsRecord × Option JsRecord :=
        if hub.shouldSendDefaultPii then
          let cookieString :=
            jsOrStr xhr.setCookieHeader xhr.setCookieHeaderLower
          (some headers,
            some (getXHRResponseHeaders xhr),
            if jsTruthyStr cookieString then cookieString.map parseCookieString
            else none)
        else (none, none, none)
      some (createEvent xhr.responseURL method xhr.status
        piiData.1 none piiData.2.1 piiData.2.2)
    else none

/-! ### The fetch / XHR wrappers

A settled JS promise (or the outcome of a synchronous call that may
throw) is an `Except JsErr`. -/

/-- An abstract JS exception / rejection reason. -/
structure JsErr where
  reason : String
  deriving DecidableEq, Repr

/-- Observable outcome of one call through the wrapped `fetch`:
`appPromise` is the promise returned to the application (the very
`responsePromise` produced by the original fetch), `captured` the event
the detached `.then` chain sent to the hub, `chainRejection` the
rejection of that detached derived promise (never surfaced to the
application). -/
structure FetchCallResult where
  appPromise : Except JsErr FetchResponse
  captured : Option SentryEvent
  chainRejection : Option JsErr

/-- The body of the function `_wrapFetch` installs, given the settled
outcome of `originalFetch.apply(this, args)` and the (possibly throwing)
response handler: the handler runs on a derived promise chain while the
original promise itself is returned. -/
def wrapFetchCall (originalOutcome : Except JsErr FetchResponse)
    (handler : FetchResponse → Except JsErr (Option SentryEvent)) :
    FetchCallResult :=
  match originalOutcome with
  | .error e => ⟨.error e, none, some e⟩
  | .ok response =>
    match handler response with
    | .ok captured => ⟨.ok response, captured, none⟩
    | .error e => ⟨.ok response, none, some e⟩

/-- The wrapped `fetch` at the function level: apply the original fetch
to the unmodified argument tuple `args`, then attach the handler chain. -/
def wrapFetchFn {ρ : Type} (originalFetch : ρ → Except JsErr FetchResponse)
    (handler : ρ → FetchResponse → Except JsErr (Option SentryEvent))
    (args : ρ) : FetchCallResult :=
  wrapFetchCall (originalFetch args) (handler args)

/-- Observable outcome of the wrapped `onloadend`: its own termination
(it throws only what the original handler throws), the captured event,
whether the catch block logged a handler error, and whether the original
`onloadend` was invoked. -/
structure OnloadendResult where
  outcome : Except JsErr Unit
  captured : Option SentryEvent
  loggedError : Bool
  originalInvoked : Bool

/-- The body of the `onloadend` wrapper installed by `_wrapXHR`:
`try { self._xhrResponseHandler(...) } catch (e) { log }` followed by
`if (original) original.apply(xhr, args)`.  `handlerOutcome` is the
outcome of the handler body (which may throw), `original` the settled
behaviour of the pre-existing `onloadend` when present. -/
def wrapXhrOnloadendRun (handlerOutcome : Except JsErr (Option SentryEvent))
    (original : Option (Except JsErr Unit)) : OnloadendResult :=
  let handled : Option SentryEvent × Bool :=
    match handlerOutcome with
    | .ok captured => (captured, false)
    | .error _ => (none, true)
  match original with
  | some o => ⟨o, handled.1, handled.2, true⟩
  | none => ⟨.ok (), handled.1, handled.2, false⟩

/-- The body of the wrapped `open` installed by `_wrapXHR`: install the
`setRequestHeader` / `onloadend` hooks on the instance, then return
`originalOpen.apply(this, openArgs)` on the unmodified arguments. -/
def wrapXhrOpenCall {ρ α : Type} (originalOpen : ρ → α) (openArgs : ρ) :
    α × Bool :=
  (originalOpen openArgs, true)

/-- The body of the wrapped `setRequestHeader`: record the header into
the captured map, then return
`originalSetRequestHeader.apply(xhr, args)` on the unmodified
arguments. -/
def wrapSetRequestHeaderCall {α : Type}
    (originalSetRequestHeader : String → String → α)
    (capturedHeaders : JsRecord) (header value : String) : α × JsRecord :=
  (originalSetRequestHeader header value,
    jsSet capturedHeaders header (some value))

/-! ### handleDom.ts -/

/-- An abstract DOM node (only its identity matters to the module). -/
structure DomNode where
  id : Nat
  deriving DecidableEq, Repr

/-- `data` of the breadcrumb produced by `handleDom`. -/
structure BreadcrumbData where
  nodeId : Option Int
  deriving DecidableEq, Repr

/-- A breadcrumb record (the spec's
`{timestamp, type, category, message, data-map}`). -/
structure Breadcrumb where
  timestamp : ℚ
  type : String
  category : String
  message : String
  data : BreadcrumbData
  deriving DecidableEq, Repr

/-- The `try` block of `handleDom`: evaluate
`handlerData.event.target || handlerData.event` (the property access may
throw), then `htmlTreeAsString` on the node (may throw).  Returns the
`targetNode` variable (still `undefined` when the access threw) and the
`target` string (`"<unknown>"` when anything threw). -/
def domTargetPair (eventTarget : Except Unit (Option DomNode))
    (eventNode : DomNode) (htmlTreeAsString : DomNode → Except Unit String) :
    Option DomNode × String :=
  match eventTarget with
  | .error _ => (none, "<unknown>")
  | .ok t =>
    let node := t.getD eventNode
    match htmlTreeAsString node with
    | .error _ => (some node, "<unknown>")
    | .ok s => (some node, s)

/-- `handleDom`: `eventTarget` is the evaluation of
`handlerData.event.target` (throwing, or `null`/`undefined`, or a node),
`eventNode` is `handlerData.event` coerced to a node,
`htmlTreeAsString` and `mirrorGetId` stand for the external
`@sentry/utils` / rrweb functions, `nowMs` is `new Date().getTime()`. -/
def handleDom (eventTarget : Except Unit (Option DomNode)) (eventNode : DomNode)
    (htmlTreeAsString : DomNode → Except Unit String)
    (mirrorGetId : DomNode → Int) (name : String) (nowMs : ℚ) :
    Option Breadcrumb :=
  let pair := domTargetPair eventTarget eventNode htmlTreeAsString
  if pair.2.length = 0 then none
  else
    some
      { timestamp := nowMs / 1000
        type := "default"
        category := "ui." ++ name
        message := pair.2
        data := ⟨pair.1.map mirrorGetId⟩ }

/-! ### BreadcrumbRing (spec §4.1) -/

/-- Modelled from the spec: the `BreadcrumbRing` component exists only in
the specification (no implementation is under `src/`): a fixed-capacity
insertion-ordered buffer, oldest first, oldest evicted on overflow. -/
structure BreadcrumbRing where
  capacity : Nat
  buf : List Breadcrumb
  deriving Repr

/-- Modelled from the spec: an empty ring of the given capacity. -/
def BreadcrumbRing.empty (capacity : Nat) : BreadcrumbRing :=
  ⟨capacity, []⟩

/-- Modelled from the spec: `add(breadcrumb)` appends, evicting the
oldest entries when the result would exceed capacity. -/
def BreadcrumbRing.add (r : BreadcrumbRing) (b : Breadcrumb) : BreadcrumbRing :=
  let l := r.buf ++ [b]
  ⟨r.capacity, if r.capacity < l.length then l.drop (l.length - r.capacity) else l⟩

/-- Modelled from the spec: `snapshot()` returns the entries oldest
first; in this functional embedding the returned list is a value,
independent of any later `add`. -/
def BreadcrumbRing.snapshot (r : BreadcrumbRing) : List Breadcrumb :=
  r.buf

/-- The ring after a whole sequence of `addBreadcrumb` calls, oldest
call first. -/
def BreadcrumbRing.ofCalls (capacity : Nat) (bs : List Breadcrumb) :
    BreadcrumbRing :=
  bs.foldl BreadcrumbRing.add (BreadcrumbRing.empty capacity)

end SentrySpec

namespace SentrySpec

theorem charsLeading_iff (n h : List Char) :
    charsLeading n h = true ↔ ∃ t, h = n ++ t := by
  induction n generalizing h with
  | nil => simp [charsLeading]
  | cons a as ih =>
    cases h with
    | nil => simp [charsLeading]
    | cons b bs =>
      simp [charsLeading, ih, List.cons_eq_cons, @eq_comm _ a b]

theorem charsSub_iff (n h : List Char) :
    charsSub n h = true ↔ ∃ l r, h = l ++ n ++ r := by
  induction h with
  | nil =>
    simp [charsSub, charsLeading_iff]
  | cons c t ih =>
    simp only [charsSub, Bool.or_eq_true, charsLeading_iff, ih]
    constructor
    · rintro (⟨s, hs⟩ | ⟨l, r, rfl⟩)
      · exact ⟨[], s, by simpa using hs⟩
      · exact ⟨c :: l, r, by simp⟩
    · rintro ⟨l, r, he⟩
      cases l with
      | nil => exact Or.inl ⟨r, by simpa using he⟩
      | cons x xs =>
        simp only [List.cons_append, List.cons_eq_cons] at he
        exact Or.inr ⟨xs, r, he.2⟩

theorem strIncludes_iff (hay sub : String) :
    strIncludes hay sub = true ↔ ∃ l r : String, hay = l ++ sub ++ r := by
  unfold strIncludes
  rw [charsSub_iff]
  constructor
  · rintro ⟨l, r, he⟩
    refine ⟨⟨l⟩, ⟨r⟩, String.ext ?_⟩
    simpa [String.data_append] using he
  · rintro ⟨l, r, rfl⟩
    exact ⟨l.data, r.data, by simp [String.toList, String.data_append]⟩

end SentrySpec

namespace SentrySpec

theorem add_buf (r : BreadcrumbRing) (b : Breadcrumb) :
    (r.add b).buf = (r.buf ++ [b]).drop ((r.buf ++ [b]).length - r.capacity) := by
  show (if r.capacity < (r.buf ++ [b]).length then
      (r.buf ++ [b]).drop ((r.buf ++ [b]).length - r.capacity) else r.buf ++ [b]) = _
  split
  · rfl
  · have hlen : (r.buf ++ [b]).length ≤ r.capacity := Nat.le_of_not_lt (by assumption)
    have h : (r.buf ++ [b]).length - r.capacity = 0 := by omega
    rw [h, List.drop_zero]

theorem drop_tail_concat (N : Nat) (xs : List Breadcrumb) (b : Breadcrumb) :
    (xs.drop (xs.length - N) ++ [b]).drop
        ((xs.drop (xs.length - N) ++ [b]).length - N)
      = (xs ++ [b]).drop ((xs ++ [b]).length - N) := by
  rcases le_or_lt N xs.length with hle | hlt
  · rcases Nat.eq_zero_or_pos N with h0 | hpos
    · subst h0
      simp [List.drop_eq_nil_of_le]
    · have hys : (xs.drop (xs.length - N)).length = N := by
        simp [List.length_drop]; omega
      have hd1 : (xs.drop (xs.length - N) ++ [b]).length - N = 1 := by
        simp [hys]
      rw [hd1, List.drop_append_of_le_length (by omega : 1 ≤ (xs.drop (xs.length - N)).length),
        List.drop_drop]
      have h2 : (xs ++ [b]).length - N = xs.length - N + 1 := by
        simp; omega
      rw [h2, List.drop_append_of_le_length (by omega : xs.length - N + 1 ≤ xs.length)]
  · have h1 : xs.length - N = 0 := by omega
    have h2 : (xs ++ [b]).length - N = 0 := by simp; omega
    simp [h1, h2]

theorem foldl_add_capacity (r : BreadcrumbRing) (bs : List Breadcrumb) :
    (bs.foldl BreadcrumbRing.add r).capacity = r.capacity := by
  induction bs generalizing r with
  | nil => rfl
  | cons b t ih => rw [List.foldl_cons, ih]; rfl

theorem ofCalls_buf (N : Nat) (bs : List Breadcrumb) :
    (BreadcrumbRing.ofCalls N bs).buf = bs.drop (bs.length - N) := by
  induction bs using List.reverseRecOn with
  | nil => simp [BreadcrumbRing.ofCalls, BreadcrumbRing.empty]
  | append_singleton xs b ih =>
    unfold BreadcrumbRing.ofCalls at ih ⊢
    rw [List.foldl_append, List.foldl_cons, List.foldl_nil, add_buf, ih,
      foldl_add_capacity]
    exact drop_tail_concat N xs b

end SentrySpec

namespace SentrySpec

/-- Spec-side meaning of one `failedRequestStatusCodes` entry: a number
matches exactly the equal status, a pair matches the inclusive range. -/
def statusEntryMatches (r : HttpStatusCodeRange) (status : Nat) : Prop :=
  match r with
  | .single n => status = n
  | .range lo hi => lo ≤ status ∧ status ≤ hi

/-- Spec-side meaning of one `failedRequestTargets` entry: a string
matches every URL containing it as a substring, a pattern matches every
URL its test accepts. -/
def targetEntryMatches (t : HttpRequestTarget) (url : String) : Prop :=
  match t with
  | .str s => ∃ l r : String, url = l ++ s ++ r
  | .regex p => p url = true

theorem statusEntry_test_iff (r : HttpStatusCodeRange) (status : Nat) :
    (match r with
      | HttpStatusCodeRange.single n => (n = status : Bool)
      | HttpStatusCodeRange.range lo hi =>
        decide (lo ≤ status) && decide (status ≤ hi)) = true ↔
    statusEntryMatches r status := by
  cases r with
  | single n =>
    show decide (n = status) = true ↔ statusEntryMatches (.single n) status
    simp only [statusEntryMatches, decide_eq_true_eq]
    exact eq_comm
  | range lo hi =>
    show (decide (lo ≤ status) && decide (status ≤ hi)) = true ↔
      statusEntryMatches (.range lo hi) status
    simp [statusEntryMatches]

theorem targetEntry_test_iff (t : HttpRequestTarget) (url : String) :
    (match t with
      | HttpRequestTarget.str s => strIncludes url s
      | HttpRequestTarget.regex p => p url) = true ↔
    targetEntryMatches t url := by
  cases t with
  | str s => simpa [targetEntryMatches] using strIncludes_iff url s
  | regex p => simp [targetEntryMatches]

/-- C2: filter matching is evaluated uniformly over the configured
lists — a numeric status entry matches exactly the equal status, a
`[begin, end]` entry matches the inclusive range; a string target entry
matches every URL containing it as a substring, a `RegExp` entry every
URL its test accepts; a list matches iff some entry matches, and an
absent (`undefined`) list matches nothing. -/
theorem claim_C2_filter_matching (self : HttpClient) (status : Nat) (url : String) :
    (self.failedRequestStatusCodes = none → isInGivenStatusRanges self status = false) ∧
    (∀ l, self.failedRequestStatusCodes = some l →
      (isInGivenStatusRanges self status = true ↔ ∃ r ∈ l, statusEntryMatches r status)) ∧
    (self.failedRequestTargets = none → isInGivenRequestTargets self url = false) ∧
    (∀ l, self.failedRequestTargets = some l →
      (isInGivenRequestTargets self url = true ↔ ∃ t ∈ l, targetEntryMatches t url)) := by
  refine ⟨?_, ?_, ?_, ?_⟩
  · intro h; simp [isInGivenStatusRanges, h]
  · intro l h
    simp only [isInGivenStatusRanges, h, List.any_eq_true]
    exact exists_congr fun r =>
      and_congr_right fun _ => statusEntry_test_iff r status
  · intro h; simp [isInGivenRequestTargets, h]
  · intro l h
    simp only [isInGivenRequestTargets, h, List.any_eq_true]
    exact exists_congr fun t =>
      and_congr_right fun _ => targetEntry_test_iff t url

/-- Witness for C2 at a concrete configuration. -/
theorem claim_C2_witness :
    isInGivenStatusRanges
        ⟨some [HttpStatusCodeRange.single 507], none, none⟩ 507 = true ↔
      ∃ r ∈ [HttpStatusCodeRange.single 507], statusEntryMatches r 507 :=
  (claim_C2_filter_matching ⟨some [HttpStatusCodeRange.single 507], none, none⟩
    507 "u").2.1 [HttpStatusCodeRange.single 507] rfl

end SentrySpec

namespace SentrySpec

/-- C1 (amended): an event reaches `hub.captureEvent` iff the hub getter
is installed AND `_shouldCaptureResponse` holds, which decomposes as:
status matches the configured codes, URL matches the configured targets,
and the URL is not a Sentry (DSN-host) request. -/
theorem claim_C1_capture_condition (self : HttpClient) (req : FetchRequest)
    (resp : FetchResponse) (xhr : Xhr) (method : String) (reqHeaders : JsRecord) :
    (∀ s u, shouldCaptureResponse self s u =
      (isInGivenStatusRanges self s && isInGivenRequestTargets self u
        && !isSentryRequest self u)) ∧
    ((fetchResponseHandler self req resp).isSome ↔
      self.getCurrentHub.isSome ∧
        shouldCaptureResponse self resp.status resp.url = true) ∧
    ((xhrResponseHandler self xhr method reqHeaders).isSome ↔
      self.getCurrentHub.isSome ∧
        shouldCaptureResponse self xhr.status xhr.responseURL = true) := by
  refine ⟨fun s u => rfl, ?_, ?_⟩
  · unfold fetchResponseHandler
    cases h : self.getCurrentHub with
    | none => simp
    | some hub =>
      by_cases hc : shouldCaptureResponse self resp.status resp.url <;> simp [hc]
  · unfold xhrResponseHandler
    cases h : self.getCurrentHub with
    | none => simp
    | some hub =>
      by_cases hc : shouldCaptureResponse self xhr.status xhr.responseURL <;> simp [hc]

/-- Concrete configuration refuting C1 as stated: default-shaped options
(every 5xx status, every URL), a hub whose client has DSN host
`sentry.io`. -/
def c1Client : HttpClient :=
  ⟨some [HttpStatusCodeRange.range 500 599],
    some [HttpRequestTarget.regex (fun _ => true)],
    some ⟨false, some ⟨some ⟨"sentry.io"⟩⟩⟩⟩

/-- The response whose URL contains the DSN host. -/
def c1Response : FetchResponse := ⟨"https://sentry.io/api/1/envelope", 500, []⟩

/-- The corresponding request. -/
def c1Request : FetchRequest := ⟨"https://sentry.io/api/1/envelope", "POST", []⟩

/-- The same response observed through XHR. -/
def c1Xhr : Xhr := ⟨500, "https://sentry.io/api/1/envelope", none, none, none⟩

/-- Counterexample to C1 as stated: both configured filters match the
response (status 500 in `[[500, 599]]`, URL matched by `/.*/`), yet
neither handler captures an event, because the URL contains the
client's DSN host. -/
theorem claim_C1_counterexample :
    isInGivenStatusRanges c1Client 500 = true ∧
    isInGivenRequestTargets c1Client "https://sentry.io/api/1/envelope" = true ∧
    fetchResponseHandler c1Client c1Request c1Response = none ∧
    xhrResponseHandler c1Client c1Xhr "POST" [] = none :=
  ⟨rfl, rfl, rfl, rfl⟩

/-- Witness for C1 (amended) at a concrete capturing configuration. -/
theorem claim_C1_witness :
    (fetchResponseHandler
        ⟨some [HttpStatusCodeRange.range 500 599],
          some [HttpRequestTarget.str ""], some ⟨false, none⟩⟩
        ⟨"https://example.com/a", "GET", []⟩
        ⟨"https://example.com/a", 503, []⟩).isSome ↔
      (some (⟨false, none⟩ : Hub)).isSome ∧
        shouldCaptureResponse
          ⟨some [HttpStatusCodeRange.range 500 599],
            some [HttpRequestTarget.str ""], some ⟨false, none⟩⟩
          503 "https://example.com/a" = true :=
  (claim_C1_capture_condition
    ⟨some [HttpStatusCodeRange.range 500 599],
      some [HttpRequestTarget.str ""], some ⟨false, none⟩⟩
    ⟨"https://example.com/a", "GET", []⟩
    ⟨"https://example.com/a", 503, []⟩
    ⟨200, "u", none, none, none⟩ "GET" []).2.1

end SentrySpec

namespace SentrySpec

theorem wrapFetchCall_appPromise (o : Except JsErr FetchResponse)
    (fh : FetchResponse → Except JsErr (Option SentryEvent)) :
    (wrapFetchCall o fh).appPromise = o := by
  unfold wrapFetchCall
  cases o with
  | error e => rfl
  | ok resp => cases hfh : fh resp <;> simp [hfh]

/-- C3: no exception from the interception handlers propagates — the
wrapped `onloadend` only throws what the original handler throws, always
invokes the original when present, converts a handler error into a log
entry with nothing captured, and the wrapped fetch hands the application
a promise settling exactly as the original fetch's promise. -/
theorem claim_C3_no_propagation
    (h : Except JsErr (Option SentryEvent)) (orig : Option (Except JsErr Unit))
    (o : Except JsErr FetchResponse)
    (fh : FetchResponse → Except JsErr (Option SentryEvent)) (e : JsErr) :
    (wrapXhrOnloadendRun h orig).outcome = orig.getD (.ok ()) ∧
    (wrapXhrOnloadendRun h orig).originalInvoked = orig.isSome ∧
    (wrapXhrOnloadendRun (.error e) orig).loggedError = true ∧
    (wrapXhrOnloadendRun (.error e) orig).captured = none ∧
    (wrapFetchCall o fh).appPromise = o := by
  refine ⟨?_, ?_, ?_, ?_, wrapFetchCall_appPromise o fh⟩ <;>
    (cases h <;> cases orig <;> rfl)

/-- C10: the instrumentation is pass-through — the wrapped fetch returns
exactly what the original fetch produces on the unmodified arguments,
and the wrapped `open` / `setRequestHeader` return what the original
methods produce on the unmodified arguments. -/
theorem claim_C10_passthrough {ρ σ α β : Type}
    (originalFetch : ρ → Except JsErr FetchResponse)
    (handler : ρ → FetchResponse → Except JsErr (Option SentryEvent)) (args : ρ)
    (originalOpen : σ → α) (openArgs : σ)
    (originalSetRequestHeader : String → String → β)
    (capturedHeaders : JsRecord) (hname hval : String) :
    (wrapFetchFn originalFetch handler args).appPromise = originalFetch args ∧
    (wrapXhrOpenCall originalOpen openArgs).1 = originalOpen openArgs ∧
    (wrapSetRequestHeaderCall originalSetRequestHeader capturedHeaders
        hname hval).1 = originalSetRequestHeader hname hval := by
  exact ⟨wrapFetchCall_appPromise (originalFetch args) (handler args), rfl, rfl⟩

end SentrySpec

namespace SentrySpec

theorem string_length_eq_zero_iff (s : String) : s.length = 0 ↔ s = "" := by
  cases s with
  | mk data =>
    constructor
    · intro h
      have : data = [] := List.length_eq_zero.mp h
      simp [this]
    · intro h
      simp [h]

/-- C4: `handleDom` is total on every input: an exception from the
target access or the DOM stringification is absorbed into the message
`"<unknown>"`, and the result is `none` exactly when the (successfully)
stringified target is the empty string. -/
theorem claim_C4_handleDom_total (tgt : Except Unit (Option DomNode))
    (ev : DomNode) (ht : DomNode → Except Unit String) (gid : DomNode → Int)
    (name : String) (now : ℚ) :
    (handleDom tgt ev ht gid name now = none ↔
      ∃ t, tgt = .ok t ∧ ht (t.getD ev) = .ok "") ∧
    (tgt = .error () →
      (handleDom tgt ev ht gid name now).map (fun b => b.message)
        = some "<unknown>") ∧
    (∀ t, tgt = .ok t → ht (t.getD ev) = .error () →
      (handleDom tgt ev ht gid name now).map (fun b => b.message)
        = some "<unknown>") := by
  have hlen : ¬("<unknown>" : String).length = 0 := by
    have h9 : ("<unknown>" : String).length = 9 := rfl
    omega
  refine ⟨?_, ?_, ?_⟩
  · cases tgt with
    | error u =>
      simp [handleDom, domTargetPair, hlen]
    | ok t =>
      cases hh : ht (t.getD ev) with
      | error u => simp [handleDom, domTargetPair, hh, hlen]
      | ok s =>
        simp [handleDom, domTargetPair, hh, string_length_eq_zero_iff]
  · rintro rfl
    rfl
  · rintro t rfl hh
    simp [handleDom, domTargetPair, hh, hlen]

/-- Witness for C4: a throwing target access yields the `"<unknown>"`
breadcrumb message. -/
theorem claim_C4_witness :
    (handleDom (.error ()) ⟨0⟩ (fun _ => .ok "p > a") (fun _ => 0) "click"
        2000).map (fun b => b.message) = some "<unknown>" :=
  (claim_C4_handleDom_total (.error ()) ⟨0⟩ (fun _ => .ok "p > a") (fun _ => 0)
    "click" 2000).2.1 rfl

/-- C5: every non-`none` result of `handleDom` is exactly the breadcrumb
record `{timestamp, type, category, message, data}` with the current time
in seconds, type `"default"`, category `"ui." ++ name`, the stringified
target as message, and the rrweb mirror id of the target node as data
(absent when there is no target node). -/
theorem claim_C5_breadcrumb_shape (tgt : Except Unit (Option DomNode))
    (ev : DomNode) (ht : DomNode → Except Unit String) (gid : DomNode → Int)
    (name : String) (now : ℚ) (b : Breadcrumb) :
    handleDom tgt ev ht gid name now = some b →
    b = { timestamp := now / 1000
          type := "default"
          category := "ui." ++ name
          message := (domTargetPair tgt ev ht).2
          data := ⟨(domTargetPair tgt ev ht).1.map gid⟩ } := by
  intro h
  unfold handleDom at h
  by_cases hz : (domTargetPair tgt ev ht).2.length = 0
  · simp [hz] at h
  · simp only [hz, if_false, Option.some.injEq] at h
    exact h.symm

/-- Witness for C5 at a concrete interaction. -/
theorem claim_C5_witness :
    (⟨(2000 : ℚ) / 1000, "default", "ui.click", "p > a", ⟨some 5⟩⟩ : Breadcrumb)
      = { timestamp := (2000 : ℚ) / 1000
          type := "default"
          category := "ui." ++ "click"
          message := (domTargetPair (.ok (some ⟨5⟩)) ⟨0⟩ (fun _ => .ok "p > a")).2
          data := ⟨((domTargetPair (.ok (some ⟨5⟩)) ⟨0⟩
              (fun _ => .ok "p > a")).1).map (fun n => (n.id : Int))⟩ } :=
  claim_C5_breadcrumb_shape (.ok (some ⟨5⟩)) ⟨0⟩ (fun _ => .ok "p > a")
    (fun n => (n.id : Int)) "click" 2000
    ⟨(2000 : ℚ) / 1000, "default", "ui.click", "p > a", ⟨some 5⟩⟩ rfl

end SentrySpec

namespace SentrySpec

/-- C6: every synthesized event carries the
`HTTP Client Error with status code: <status>` message, exactly one
exception value of type `Error` with that message and the `http.client`
mechanism, the request url/method, a response context with the status
code, and `body_size` parsed base-10 from the `Content-Length` header
(looked up under both spellings), `undefined` when absent. -/
theorem claim_C6_event_shape (url method : String) (status : Nat)
    (rH rC pH pC : Option JsRecord) :
    (createEvent url method status rH rC pH pC).message =
        "HTTP Client Error with status code: " ++ toString status ∧
    (createEvent url method status rH rC pH pC).exceptionValues =
        [⟨"Error", "HTTP Client Error with status code: " ++ toString status,
          some ⟨"http.client", true⟩⟩] ∧
    (createEvent url method status rH rC pH pC).request = ⟨url, method, rH, rC⟩ ∧
    (createEvent url method status rH rC pH pC).contextsResponse.status_code
        = status ∧
    (createEvent url method status rH rC pH pC).contextsResponse.headers = pH ∧
    (createEvent url method status rH rC pH pC).contextsResponse.cookies = pC ∧
    (createEvent url method status rH rC pH pC).contextsResponse.body_size
        = getResponseSizeFromHeaders pH ∧
    (pH = none → getResponseSizeFromHeaders pH = none) ∧
    (∀ h, pH = some h → contentLengthOf h = none →
      getResponseSizeFromHeaders pH = none) ∧
    (∀ h v, pH = some h → contentLengthOf h = some v →
      getResponseSizeFromHeaders pH = some (jsParseIntBase10 v)) ∧
    (∀ h v, jsGet h "Content-Length" = some v → ¬v = "" →
      contentLengthOf h = some v) ∧
    (∀ h v, jsGet h "Content-Length" = none →
      jsGet h "content-length" = some v → ¬v = "" →
      contentLengthOf h = some v) := by
  refine ⟨rfl, rfl, rfl, rfl, rfl, rfl, rfl, ?_, ?_, ?_, ?_, ?_⟩
  · rintro rfl; rfl
  · rintro h rfl hc
    simp [getResponseSizeFromHeaders, hc]
  · rintro h v rfl hc
    simp [getResponseSizeFromHeaders, hc]
  · intro h v hg hv
    simp [contentLengthOf, jsOrStr, jsTruthyStr, hg, hv]
  · intro h v hg1 hg2 hv
    simp [contentLengthOf, jsOrStr, jsTruthyStr, hg1, hg2, hv]

/-- Witness for C6: the `Content-Length` lookup at a concrete header
map. -/
theorem claim_C6_witness :
    getResponseSizeFromHeaders (some [("Content-Length", some "42")])
      = some (jsParseIntBase10 "42") :=
  (claim_C6_event_shape "u" "GET" 500 none none
      (some [("Content-Length", some "42")]) none).2.2.2.2.2.2.2.2.2.1
    [("Content-Length", some "42")] "42" rfl rfl

end SentrySpec

namespace SentrySpec

/-- C8: headers and cookies reach the event only under
`shouldSendDefaultPii`; with PII disabled, all four header/cookie fields
of any captured event are `undefined`, and two responses differing only
in headers/cookies produce identical captured events. -/
theorem claim_C8_pii_gating (self : HttpClient) (hub : Hub)
    (hhub : self.getCurrentHub = some hub)
    (hpii : hub.shouldSendDefaultPii = false) :
    (∀ req resp ev, fetchResponseHandler self req resp = some ev →
      ev.request.headers = none ∧ ev.request.cookies = none ∧
      ev.contextsResponse.headers = none ∧ ev.contextsResponse.cookies = none) ∧
    (∀ xhr method hs ev, xhrResponseHandler self xhr method hs = some ev →
      ev.request.headers = none ∧ ev.request.cookies = none ∧
      ev.contextsResponse.headers = none ∧ ev.contextsResponse.cookies = none) ∧
    (∀ ru rm rh rh' u s h h',
      fetchResponseHandler self ⟨ru, rm, rh⟩ ⟨u, s, h⟩ =
        fetchResponseHandler self ⟨ru, rm, rh'⟩ ⟨u, s, h'⟩) ∧
    (∀ s u c1 c2 a c1' c2' a' method hs hs',
      xhrResponseHandler self ⟨s, u, c1, c2, a⟩ method hs =
        xhrResponseHandler self ⟨s, u, c1', c2', a'⟩ method hs') := by
  refine ⟨?_, ?_, ?_, ?_⟩
  · intro req resp ev hev
    rw [fetchResponseHandler, hhub] at hev
    by_cases hc : shouldCaptureResponse self resp.status resp.url
    · simp only [hc, if_true, hpii, if_false, Bool.false_eq_true,
        Option.some.injEq] at hev
      subst hev
      exact ⟨rfl, rfl, rfl, rfl⟩
    · simp [hc] at hev
  · intro xhr method hs ev hev
    rw [xhrResponseHandler, hhub] at hev
    by_cases hc : shouldCaptureResponse self xhr.status xhr.responseURL
    · simp only [hc, if_true, hpii, if_false, Bool.false_eq_true,
        Option.some.injEq] at hev
      subst hev
      exact ⟨rfl, rfl, rfl, rfl⟩
    · simp [hc] at hev
  · intro ru rm rh rh' u s h h'
    rw [fetchResponseHandler, fetchResponseHandler, hhub]
    by_cases hc : shouldCaptureResponse self s u <;>
      simp [hc, hpii]
  · intro s u c1 c2 a c1' c2' a' method hs hs'
    rw [xhrResponseHandler, xhrResponseHandler, hhub]
    by_cases hc : shouldCaptureResponse self s u <;>
      simp [hc, hpii]

/-- Witness for C8 at a concrete PII-disabled client: two responses
differing only in headers yield the same captured event. -/
theorem claim_C8_witness :
    fetchResponseHandler
        ⟨some [HttpStatusCodeRange.range 500 599],
          some [HttpRequestTarget.str ""], some ⟨false, none⟩⟩
        ⟨"https://example.com/a", "GET", [("Cookie", "a=1")]⟩
        ⟨"https://example.com/a", 503, [("Set-Cookie", "b=2")]⟩ =
      fetchResponseHandler
        ⟨some [HttpStatusCodeRange.range 500 599],
          some [HttpRequestTarget.str ""], some ⟨false, none⟩⟩
        ⟨"https://example.com/a", "GET", []⟩
        ⟨"https://example.com/a", 503, []⟩ :=
  (claim_C8_pii_gating
    ⟨some [HttpStatusCodeRange.range 500 599],
      some [HttpRequestTarget.str ""], some ⟨false, none⟩⟩
    ⟨false, none⟩ rfl rfl).2.2.1
    "https://example.com/a" "GET" [("Cookie", "a=1")] []
    "https://example.com/a" 503 [("Set-Cookie", "b=2")] []

/-- C9: a response whose URL contains the configured DSN host is never
captured, whatever the status and filter configuration; without a hub, a
client, or a DSN, the URL is treated as non-Sentry. -/
theorem claim_C9_sentry_exclusion (self : HttpClient) (url : String)
    (status : Nat) :
    (∀ hub client dsn, self.getCurrentHub = some hub →
      hub.client = some client → client.dsn = some dsn →
      strIncludes url dsn.host = true →
      shouldCaptureResponse self status url = false ∧
      (∀ req rh, fetchResponseHandler self req ⟨url, status, rh⟩ = none) ∧
      (∀ c1 c2 a method hs,
        xhrResponseHandler self ⟨status, url, c1, c2, a⟩ method hs = none)) ∧
    (self.getCurrentHub = none → isSentryRequest self url = false) ∧
    (∀ hub, self.getCurrentHub = some hub → hub.client = none →
      isSentryRequest self url = false) ∧
    (∀ hub client, self.getCurrentHub = some hub →
      hub.client = some client → client.dsn = none →
      isSentryRequest self url = false) := by
  refine ⟨?_, ?_, ?_, ?_⟩
  · intro hub client dsn hhub hclient hdsn hinc
    have hsr : isSentryRequest self url = true := by
      simp only [isSentryRequest, hhub, hclient, hdsn]
      exact hinc
    have hcap : shouldCaptureResponse self status url = false := by
      rw [shouldCaptureResponse, hsr]
      simp
    refine ⟨hcap, ?_, ?_⟩
    · intro req rh
      rw [fetchResponseHandler, hhub]
      simp [hcap]
    · intro c1 c2 a method hs
      rw [xhrResponseHandler, hhub]
      simp [hcap]
  · intro hhub; simp [isSentryRequest, hhub]
  · intro hub hhub hclient; simp [isSentryRequest, hhub, hclient]
  · intro hub client hhub hclient hdsn
    simp [isSentryRequest, hhub, hclient, hdsn]

/-- Witness for C9: a 500 response to the DSN host `sentry.io` is not
captured even though both filters match. -/
theorem claim_C9_witness :
    shouldCaptureResponse
        ⟨some [HttpStatusCodeRange.range 500 599],
          some [HttpRequestTarget.str ""],
          some ⟨true, some ⟨some ⟨"sentry.io"⟩⟩⟩⟩
        500 "https://sentry.io/api/1/envelope" = false :=
  ((claim_C9_sentry_exclusion
      ⟨some [HttpStatusCodeRange.range 500 599],
        some [HttpRequestTarget.str ""],
        some ⟨true, some ⟨some ⟨"sentry.io"⟩⟩⟩⟩
      "https://sentry.io/api/1/envelope" 500).1
    ⟨true, some ⟨some ⟨"sentry.io"⟩⟩⟩ ⟨some ⟨"sentry.io"⟩⟩ ⟨"sentry.io"⟩
    rfl rfl rfl rfl).1

end SentrySpec

namespace SentrySpec

/-- C7 (spec-modelled BreadcrumbRing): after any sequence of
`addBreadcrumb` calls the snapshot is exactly the suffix of the call
sequence that fits the capacity — length always at most `N`, and for a
sequence exceeding the capacity, exactly the `N` most recent breadcrumbs
oldest-first; a snapshot is a plain list value, unaffected by later
mutation of the ring. -/
theorem claim_C7_ring_snapshot (N : Nat) (bs : List Breadcrumb) :
    (BreadcrumbRing.ofCalls N bs).snapshot = bs.drop (bs.length - N) ∧
    (BreadcrumbRing.ofCalls N bs).snapshot.length ≤ N ∧
    (N ≤ bs.length → (BreadcrumbRing.ofCalls N bs).snapshot.length = N) := by
  have hbuf := ofCalls_buf N bs
  refine ⟨hbuf, ?_, ?_⟩
  · show (BreadcrumbRing.ofCalls N bs).buf.length ≤ N
    rw [hbuf, List.length_drop]
    omega
  · intro hN
    show (BreadcrumbRing.ofCalls N bs).buf.length = N
    rw [hbuf, List.length_drop]
    omega

/-- Witness for C7: capacity 2, three adds — the snapshot keeps the two
most recent entries in order. -/
theorem claim_C7_witness :
    (BreadcrumbRing.ofCalls 2
        [⟨1, "default", "c", "a", ⟨none⟩⟩, ⟨2, "default", "c", "b", ⟨none⟩⟩,
          ⟨3, "default", "c", "d", ⟨none⟩⟩]).snapshot.length = 2 :=
  (claim_C7_ring_snapshot 2
    [⟨1, "default", "c", "a", ⟨none⟩⟩, ⟨2, "default", "c", "b", ⟨none⟩⟩,
      ⟨3, "default", "c", "d", ⟨none⟩⟩]).2.2 (by simp)

end SentrySpec
